import Mathlib

/-!
Shallow embedding of the screen-capture detection and response engine of the
bookapp-win repository (Electron main process `ScreenCaptureProtection` class,
its IPC handlers, and the renderer hook `useScreenshotProtection`).

Process-listing outputs are modelled as `Option String`: `some stdout` for a
successful external command, `none` when the command fails (unavailable or
non-zero exit), matching the `try { execAsync ... } catch { return false }`
structure of the source.  JavaScript `String.prototype.toLowerCase` on the
ASCII process names involved is modelled by mapping `Char.toLower`, and
`String.prototype.includes` by a contiguous-sublist check on character lists.
-/

namespace BookApp

/-- The values of `process.platform` the source branches on. -/
inductive Platform where
  | darwin
  | win32
  | linux
  deriving DecidableEq, Repr

/-- Result of running an external command with `execAsync`:
`some stdout` on success, `none` when the command throws. -/
abbrev CmdResult := Option String

/-- JavaScript `s.toLowerCase()` on the character list of `s`
(per-character lowering; the signatures involved are ASCII). -/
def jsLower (s : String) : List Char :=
  s.toList.map Char.toLower

/-- JavaScript `hay.includes(needle)`: `needle` occurs as a contiguous
substring of `hay`. -/
def listContainsB (needle hay : List Char) : Bool :=
  hay.tails.any (fun t => needle.isPrefixOf t)

/-- The instance field `suspiciousProcesses` of `ScreenCaptureProtection`. -/
def suspiciousProcesses : List String :=
  ["obs", "obs64", "obs-studio", "streamlabs", "xsplit", "bandicam", "fraps",
   "camtasia", "snagit", "screenpresso", "faststone", "picpick"]

/-- The local `criticalProcesses` list of `detectScreenCapture`. -/
def criticalProcesses : List String :=
  ["obs", "obs64", "obs-studio", "bandicam", "fraps"]

/-- `ScreenCaptureProtection.checkSpecificProcesses(processNames)`: run the
process-listing command, lower-case its stdout, and report whether some name
in `processNames` occurs as a substring; a failed command yields `false`. -/
def checkSpecificProcesses (processNames : List String) (r : CmdResult) : Bool :=
  match r with
  | none => false
  | some stdout =>
      let processes := jsLower stdout
      processNames.any (fun proc => listContainsB proc.toList processes)

/-- `ScreenCaptureProtection.checkSuspiciousProcesses()`: like
`checkSpecificProcesses` but over the fixed `suspiciousProcesses` list. -/
def checkSuspiciousProcesses (r : CmdResult) : Bool :=
  match r with
  | none => false
  | some stdout =>
      let processes := jsLower stdout
      suspiciousProcesses.any (fun proc => listContainsB proc.toList processes)

/-- The spec-side notion of a case-insensitive substring match:
lower both the signature and the output before the substring test. -/
def ciSubstr (needle hay : String) : Bool :=
  listContainsB (jsLower needle) (jsLower hay)

/-- JavaScript regular-expression line terminators, which `.` does not match. -/
def isLineTerminator (c : Char) : Bool :=
  c = '\n' || c = '\r' || c = Char.ofNat 0x2028 || c = Char.ofNat 0x2029

/-- Matching of one pattern character against one input character under the
`i` flag: `.` matches anything but a line terminator, a literal character
matches case-insensitively. -/
def regexCharMatch (p c : Char) : Bool :=
  if p = '.' then !isLineTerminator c else p.toLower = c.toLower

/-- The pattern (a plain string where `.` is the wildcard) matches a prefix of
the input character list. -/
def patMatchAt : List Char → List Char → Bool
  | [], _ => true
  | _ :: _, [] => false
  | p :: ps, c :: cs => regexCharMatch p c && patMatchAt ps cs

/-- JavaScript `new RegExp(pat, i-flag).test(s)` for the dot-and-literals
patterns used by the source: the pattern matches at some position of `s`. -/
def regexTestCI (pat : String) (s : List Char) : Bool :=
  s.tails.any (patMatchAt pat.toList)

/-- The local `captureProcesses` list of `detectWindowsScreenCapture`. -/
def captureProcessesWin : List String :=
  ["winlogon.exe"]

/-- `ScreenCaptureProtection.detectWindowsScreenCapture()`: run
`wmic process get name,processid`, lower-case the stdout, and report whether
some entry of `captureProcessesWin` matches it as a case-insensitive regular
expression; a failed command yields `false`. -/
def detectWindowsScreenCapture (r : CmdResult) : Bool :=
  match r with
  | none => false
  | some stdout =>
      let processes := jsLower stdout
      (captureProcessesWin.find? (fun proc => regexTestCI proc processes)).isSome

/-- The external signals one invocation of
`ScreenCaptureProtection.detectScreenCapture` can observe.  The critical check
and the full suspicious scan each spawn their own process-listing command, so
their outputs are separate fields; the outcome of the effectful
`detectMacOSScreenCapture` probe is an oracle bit. -/
structure DetectEnv where
  platform : Platform
  developmentMode : Bool
  /-- stdout of the listing command spawned by the critical-signature check. -/
  criticalListOutput : CmdResult
  /-- stdout of the listing command spawned by the full suspicious scan. -/
  suspiciousListOutput : CmdResult
  /-- result of the macOS platform probe (`detectMacOSScreenCapture`). -/
  macProbe : Bool
  /-- stdout of the `wmic` command spawned by the Windows heuristic. -/
  wmicOutput : CmdResult
  deriving DecidableEq, Repr

/-- The individual checks a detection pass can run, in source order. -/
inductive Check where
  | critical
  | macProbe
  | suspicious
  | winCheck
  deriving DecidableEq, Repr

/-- `ScreenCaptureProtection.detectScreenCapture()`, instrumented with the
list of checks it actually ran, in order.  Mirrors the early-return structure
of the source: critical signatures first, then (on darwin) the platform
probe, then an early `false` in development mode, then the full suspicious
scan, then (on win32) the Windows heuristic. -/
def detectScreenCaptureTrace (env : DetectEnv) : Bool × List Check :=
  let t1 := [Check.critical]
  if checkSpecificProcesses criticalProcesses env.criticalListOutput then (true, t1)
  else
    let t2 := if env.platform = Platform.darwin then t1 ++ [Check.macProbe] else t1
    if env.platform = Platform.darwin ∧ env.macProbe then (true, t2)
    else if env.developmentMode then (false, t2)
    else
      let t3 := t2 ++ [Check.suspicious]
      if checkSuspiciousProcesses env.suspiciousListOutput then (true, t3)
      else if env.platform = Platform.win32 then
        (detectWindowsScreenCapture env.wmicOutput, t3 ++ [Check.winCheck])
      else (false, t3)

/-- The boolean result of one detection pass. -/
def detectScreenCapture (env : DetectEnv) : Bool :=
  (detectScreenCaptureTrace env).1

/-- Environment bits read by the monitoring lifecycle:
`DISABLE_SCREEN_PROTECTION === 'true'` and the development-mode flag. -/
structure MonEnv where
  disableScreenProtection : Bool
  developmentMode : Bool
  deriving DecidableEq, Repr

/-- State of the monitoring lifecycle: the instance flag `isMonitoring`, the
global variable `screenCaptureCheckInterval` (the stored handle), the OS-side
set of live interval timers it may point into, and a fresh-handle counter.
Tracking the live timers separately from the stored handle makes "at most one
active timer" a real property of the transition system rather than a fact
about the handle slot. -/
structure MonState where
  isMonitoring : Bool
  handle : Option Nat
  liveTimers : List Nat
  nextId : Nat
  deriving DecidableEq, Repr

/-- The state at module load: not monitoring, `screenCaptureCheckInterval = null`. -/
def initMonState : MonState :=
  { isMonitoring := false, handle := none, liveTimers := [], nextId := 0 }

/-- The polling period chosen by `startMonitoring`: 5000 ms in development,
2000 ms in production. -/
def checkIntervalMs (env : MonEnv) : Nat :=
  if env.developmentMode then 5000 else 2000

/-- `ScreenCaptureProtection.startMonitoring()`: a no-op if already
monitoring; if `DISABLE_SCREEN_PROTECTION === 'true'` it only marks itself as
monitoring (to prevent repeated attempts) and creates no timer; otherwise it
marks itself as monitoring and registers one new interval timer. -/
def startMonitoring (env : MonEnv) (s : MonState) : MonState :=
  if s.isMonitoring then s
  else if env.disableScreenProtection then { s with isMonitoring := true }
  else
    { isMonitoring := true, handle := some s.nextId,
      liveTimers := s.nextId :: s.liveTimers, nextId := s.nextId + 1 }

/-- `ScreenCaptureProtection.stopMonitoring()`: a no-op if already stopped;
otherwise it clears the monitoring flag and, if the stored handle is
non-null, cancels that timer and nulls the handle. -/
def stopMonitoringState (s : MonState) : MonState :=
  if !s.isMonitoring then s
  else
    match s.handle with
    | none => { s with isMonitoring := false }
    | some h =>
        { s with isMonitoring := false, handle := none,
                 liveTimers := s.liveTimers.erase h }

/-- States reachable from module load by any sequence of start/stop calls. -/
inductive ReachableMon (env : MonEnv) : MonState → Prop where
  | init : ReachableMon env initMonState
  | start {s : MonState} : ReachableMon env s → ReachableMon env (startMonitoring env s)
  | stop {s : MonState} : ReachableMon env s → ReachableMon env (stopMonitoringState s)

/-- The structural invariant of the lifecycle: the stored handle and the live
timer set agree, and a stored handle implies the monitoring flag. -/
def MonInv (s : MonState) : Prop :=
  (match s.handle with
   | none => s.liveTimers = []
   | some h => s.liveTimers = [h]) ∧
  (s.handle.isSome → s.isMonitoring = true)

/-- Detection passes fired over `n` elapsed polling periods: each live
interval timer fires one pass per period, and each pass spawns at least one
process-listing command.  With no live timer, no pass ever fires. -/
def detectionPassesFired (s : MonState) (n : Nat) : Nat :=
  n * s.liveTimers.length

/-- The main-process global `screenProtectionActive` together with the
monitoring state, as seen by the IPC handlers. -/
structure IpcState where
  screenProtectionActive : Bool
  mon : MonState
  deriving DecidableEq, Repr

/-- Reply shape of the lifecycle IPC handlers. -/
structure IpcReply where
  success : Bool
  deriving DecidableEq, Repr

/-- The `ipcMain.handle('start-screen-protection')` handler: set the global
active flag, call `startMonitoring`, and report success.  The modelled
operations are total, so the `catch` branch of the source is unreachable. -/
def startScreenProtectionHandler (env : MonEnv) (st : IpcState) :
    IpcState × IpcReply :=
  ({ screenProtectionActive := true, mon := startMonitoring env st.mon },
   { success := true })

/-- The `ipcMain.handle('stop-screen-protection')` handler. -/
def stopScreenProtectionHandler (st : IpcState) : IpcState × IpcReply :=
  ({ screenProtectionActive := false, mon := stopMonitoringState st.mon },
   { success := true })

/-- The user's choice at the blocking `dialog.showMessageBox` prompt:
`confirm` is the `OK` button (`result.response === 0`), `cancel` the
`Cancel` button (`result.response === 1`). -/
inductive UserChoice where
  | confirm
  | cancel
  deriving DecidableEq, Repr

/-- Observable actions of the main-process response handler.  The
`notifyRenderer` action (an IPC `send` to the renderer on a named channel) is
available to the handler but, as the theorems below show, never used. -/
inductive MainEvent where
  | stopMonitoringEv
  | showDialog
  | notifyRenderer (channel : String)
  | quitApp (delayMs : Nat)
  deriving DecidableEq, Repr

/-- `ScreenCaptureProtection.handleScreenCaptureDetected()`: stop monitoring,
show the blocking warning dialog, then quit — immediately on `OK`, after a
1000 ms `setTimeout` on `Cancel`.  Returns the monitoring state after the
embedded `stopMonitoring` call together with the ordered action trace. -/
def handleScreenCaptureDetectedRun (s : MonState) (choice : UserChoice) :
    MonState × List MainEvent :=
  (stopMonitoringState s,
   MainEvent.stopMonitoringEv :: MainEvent.showDialog ::
     (match choice with
      | UserChoice.confirm => [MainEvent.quitApp 0]
      | UserChoice.cancel => [MainEvent.quitApp 1000]))

/-- Observable actions of the renderer response handler
`handleScreenshotDetected` in `useScreenshotProtection`. -/
inductive RendererEvent where
  | toastError
  | confirmDialog
  | logoutUser (delayMs : Nat)
  deriving DecidableEq, Repr

/-- The renderer `handleScreenshotDetected` callback: show an error toast,
show a blocking `window.confirm` dialog, then log the user out after a
`setTimeout` of 500 ms when the user confirmed and 100 ms when they
cancelled. -/
def handleScreenshotDetected (userConfirmed : Bool) : List RendererEvent :=
  [RendererEvent.toastError, RendererEvent.confirmDialog,
   RendererEvent.logoutUser (if userConfirmed then 500 else 100)]

/-- The delays of all `app.quit` actions in a main-process trace. -/
def quitDelays (tr : List MainEvent) : List Nat :=
  tr.filterMap (fun e =>
    match e with
    | MainEvent.quitApp d => some d
    | _ => none)

/-- The delays of all `logout` actions in a renderer trace. -/
def logoutDelays (tr : List RendererEvent) : List Nat :=
  tr.filterMap (fun e =>
    match e with
    | RendererEvent.logoutUser d => some d
    | _ => none)

/-- The delay of the first `app.quit` action in a main-process trace. -/
def firstQuitDelay (tr : List MainEvent) : Option Nat :=
  (quitDelays tr).head?

/-- How many renderer notifications a main-process trace sends. -/
def notifyCount (tr : List MainEvent) : Nat :=
  (tr.filter (fun e =>
    match e with
    | MainEvent.notifyRenderer _ => true
    | _ => false)).length

/-- The IPC channels the renderer hook listens on for capture notifications
(`useScreenshotProtection`, the IPC listener effect). -/
def rendererListenerChannels : List String :=
  ["screen-capture-detected", "screenshot-detected"]

/-- The `systemPreferences.getMediaAccessStatus('screen')` values the source
compares against. -/
inductive MediaAccessStatus where
  | notDetermined
  | granted
  | denied
  | restricted
  | unknown
  deriving DecidableEq, Repr

/-- OS-visible side effects of the permission operations. -/
inductive OsEffect where
  | mediaAccessQuery
  | capturePrompt
  deriving DecidableEq, Repr

/-- What the OS would answer if the permission operations queried it:
`none` models the call throwing. -/
structure PermEnv where
  platform : Platform
  mediaAccessStatus : Option MediaAccessStatus
  /-- number of sources `desktopCapturer.getSources` would return. -/
  desktopSources : Option Nat
  deriving DecidableEq, Repr

/-- `ScreenCaptureProtection.checkMacOSScreenRecordingPermission()`: `true`
with no OS interaction off darwin; on darwin, query the media access status
(one OS query) and report whether it is `granted`, with a thrown query
reported as `false`. -/
def checkMacOSScreenRecordingPermission (e : PermEnv) : Bool × List OsEffect :=
  if e.platform ≠ Platform.darwin then (true, [])
  else
    match e.mediaAccessStatus with
    | none => (false, [OsEffect.mediaAccessQuery])
    | some st => (st = MediaAccessStatus.granted, [OsEffect.mediaAccessQuery])

/-- `ScreenCaptureProtection.requestMacOSScreenRecordingPermission()`: `true`
with no OS interaction off darwin; on darwin, trigger the consent prompt via
`desktopCapturer.getSources` and report whether any source came back, with a
thrown call reported as `false`. -/
def requestMacOSScreenRecordingPermission (e : PermEnv) : Bool × List OsEffect :=
  if e.platform ≠ Platform.darwin then (true, [])
  else
    match e.desktopSources with
    | none => (false, [OsEffect.capturePrompt])
    | some n => (decide (0 < n), [OsEffect.capturePrompt])

/-- The `ipcMain.handle('check-screen-permission')` handler: delegate on
darwin, otherwise `true` with no OS interaction. -/
def checkScreenPermissionHandler (e : PermEnv) : Bool × List OsEffect :=
  if e.platform = Platform.darwin then checkMacOSScreenRecordingPermission e
  else (true, [])

/-- The `ipcMain.handle('request-screen-permission')` handler. -/
def requestScreenPermissionHandler (e : PermEnv) : Bool × List OsEffect :=
  if e.platform = Platform.darwin then requestMacOSScreenRecordingPermission e
  else (true, [])

theorem listContainsB_iff (needle hay : List Char) :
    listContainsB needle hay = true ↔ needle <:+: hay := by
  simp only [listContainsB, List.any_eq_true, List.mem_tails,
    List.isPrefixOf_iff_prefix, List.infix_iff_prefix_suffix]
  exact ⟨fun ⟨t, h1, h2⟩ => ⟨t, h2, h1⟩, fun ⟨t, h1, h2⟩ => ⟨t, h2, h1⟩⟩

theorem monInv_init : MonInv initMonState := by
  constructor <;> simp [initMonState]

theorem monInv_start (env : MonEnv) (s : MonState) (h : MonInv s) :
    MonInv (startMonitoring env s) := by
  obtain ⟨mon, hdl, lt, nid⟩ := s
  cases mon <;> cases hdl <;>
    by_cases hdis : env.disableScreenProtection <;>
    simp_all [MonInv, startMonitoring]

theorem monInv_stop (s : MonState) (h : MonInv s) :
    MonInv (stopMonitoringState s) := by
  obtain ⟨mon, hdl, lt, nid⟩ := s
  cases mon <;> cases hdl <;>
    simp_all [MonInv, stopMonitoringState, List.erase_cons]

theorem monInv_reachable {env : MonEnv} {s : MonState}
    (h : ReachableMon env s) : MonInv s := by
  induction h with
  | init => exact monInv_init
  | start _ ih => exact monInv_start _ _ ih
  | stop _ ih => exact monInv_stop _ ih

theorem checkSpecificProcesses_eq_true_iff (S : List String) (r : CmdResult) :
    checkSpecificProcesses S r = true ↔
      ∃ P, r = some P ∧ ∃ s ∈ S, listContainsB s.toList (jsLower P) = true := by
  cases r with
  | none => simp [checkSpecificProcesses]
  | some stdout => simp [checkSpecificProcesses, List.any_eq_true]

theorem checkSuspiciousProcesses_eq_true_iff (r : CmdResult) :
    checkSuspiciousProcesses r = true ↔
      ∃ P, r = some P ∧
        ∃ s ∈ suspiciousProcesses, listContainsB s.toList (jsLower P) = true := by
  cases r with
  | none => simp [checkSuspiciousProcesses]
  | some stdout => simp [checkSuspiciousProcesses, List.any_eq_true]

theorem suspicious_all_lowercase :
    ∀ s ∈ suspiciousProcesses, jsLower s = s.toList := by decide

/-- C1, counterexample.  The scan is not a case-insensitive match for every
signature set: signatures are compared verbatim against the lowered output,
so the uppercase signature "OBS" misses the output "obs" even though it is a
case-insensitive substring of it. -/
theorem c1_counterexample :
    ¬ (∀ (S : List String) (r : CmdResult),
        checkSpecificProcesses S r = true ↔
          ∃ P, r = some P ∧ ∃ s ∈ S, ciSubstr s P = true) := by
  intro h
  have h2 := (h ["OBS"] (some "obs")).mpr
    ⟨"obs", rfl, "OBS", by simp, by decide⟩
  have h3 : checkSpecificProcesses ["OBS"] (some "obs") = false := by decide
  rw [h3] at h2
  exact Bool.false_ne_true h2

/-- C1 (amended): the scan returns true iff the listing command succeeded and
some signature occurs verbatim in the lower-cased output (so it is a
case-insensitive match exactly when the signatures are themselves lowercase,
as every signature set in the source is); a failed listing command always
yields false. -/
theorem c1_scan_amended :
    ∀ (S : List String) (r : CmdResult),
      (checkSpecificProcesses S r = true ↔
        ∃ P, r = some P ∧ ∃ s ∈ S, listContainsB s.toList (jsLower P) = true) ∧
      ((∀ s ∈ S, jsLower s = s.toList) →
        (checkSpecificProcesses S r = true ↔
          ∃ P, r = some P ∧ ∃ s ∈ S, ciSubstr s P = true)) ∧
      (checkSuspiciousProcesses r = true ↔
        ∃ P, r = some P ∧ ∃ s ∈ suspiciousProcesses, ciSubstr s P = true) ∧
      (r = none →
        checkSpecificProcesses S r = false ∧ checkSuspiciousProcesses r = false) := by
  intro S r
  have hci : ∀ (T : List String), (∀ s ∈ T, jsLower s = s.toList) →
      ∀ P, ((∃ s ∈ T, listContainsB s.toList (jsLower P) = true) ↔
        (∃ s ∈ T, ciSubstr s P = true)) := by
    intro T hT P
    constructor
    · rintro ⟨s, hs, hc⟩
      exact ⟨s, hs, by rw [ciSubstr, hT s hs]; exact hc⟩
    · rintro ⟨s, hs, hc⟩
      rw [ciSubstr, hT s hs] at hc
      exact ⟨s, hs, hc⟩
  refine ⟨checkSpecificProcesses_eq_true_iff S r, ?_, ?_, ?_⟩
  · intro hS
    rw [checkSpecificProcesses_eq_true_iff S r]
    constructor
    · rintro ⟨P, hP, hx⟩
      exact ⟨P, hP, (hci S hS P).mp hx⟩
    · rintro ⟨P, hP, hx⟩
      exact ⟨P, hP, (hci S hS P).mpr hx⟩
  · rw [checkSuspiciousProcesses_eq_true_iff r]
    constructor
    · rintro ⟨P, hP, hx⟩
      exact ⟨P, hP, (hci suspiciousProcesses suspicious_all_lowercase P).mp hx⟩
    · rintro ⟨P, hP, hx⟩
      exact ⟨P, hP, (hci suspiciousProcesses suspicious_all_lowercase P).mpr hx⟩
  · rintro rfl
    exact ⟨rfl, rfl⟩

/-- C1, witness: the amended characterization at a concrete lowercase
signature set and output. -/
theorem c1_witness :
    checkSpecificProcesses ["obs"] (some "an OBS Studio window") = true := by
  have h := c1_scan_amended ["obs"] (some "an OBS Studio window")
  exact (h.2.1 (by decide)).mpr
    ⟨"an OBS Studio window", rfl, "obs", by simp, by decide⟩

theorem trace_of_critical (env : DetectEnv)
    (h : checkSpecificProcesses criticalProcesses env.criticalListOutput = true) :
    detectScreenCaptureTrace env = (true, [Check.critical]) := by
  unfold detectScreenCaptureTrace
  simp [h]

theorem checkSpecific_critical_of_obs (P : String) (h : ciSubstr "obs" P = true) :
    checkSpecificProcesses criticalProcesses (some P) = true := by
  have e : jsLower "obs" = "obs".toList := by decide
  rw [ciSubstr, e] at h
  rw [checkSpecificProcesses_eq_true_iff]
  exact ⟨P, rfl, "obs", by simp [criticalProcesses], h⟩

/-- C2: every detection pass starts with the critical-signature check and
short-circuits on it; when the critical check is negative, the macOS probe
runs exactly on darwin in every mode; the suspicious scan and the Windows
heuristic never run in development mode, and the Windows heuristic only runs
on win32 in production; the pass result is the corresponding short-circuit
disjunction; and a listing containing the critical signature "obs" makes the
pass return true regardless of environment mode. -/
theorem c2_detection_pass_structure :
    ∀ env : DetectEnv,
      ((detectScreenCaptureTrace env).2.head? = some Check.critical) ∧
      (checkSpecificProcesses criticalProcesses env.criticalListOutput = true →
        detectScreenCaptureTrace env = (true, [Check.critical])) ∧
      (checkSpecificProcesses criticalProcesses env.criticalListOutput = false →
        env.platform = Platform.darwin →
        Check.macProbe ∈ (detectScreenCaptureTrace env).2) ∧
      (env.developmentMode = true →
        Check.suspicious ∉ (detectScreenCaptureTrace env).2 ∧
        Check.winCheck ∉ (detectScreenCaptureTrace env).2) ∧
      (Check.winCheck ∈ (detectScreenCaptureTrace env).2 →
        env.platform = Platform.win32 ∧ env.developmentMode = false) ∧
      (detectScreenCapture env =
        (checkSpecificProcesses criticalProcesses env.criticalListOutput ||
          (decide (env.platform = Platform.darwin) && env.macProbe) ||
          (!env.developmentMode &&
            (checkSuspiciousProcesses env.suspiciousListOutput ||
              (decide (env.platform = Platform.win32) &&
                detectWindowsScreenCapture env.wmicOutput))))) ∧
      (∀ P, env.criticalListOutput = some P → ciSubstr "obs" P = true →
        detectScreenCapture env = true) := by
  intro env
  have hobsd : ∀ P, env.criticalListOutput = some P → ciSubstr "obs" P = true →
      detectScreenCapture env = true := by
    intro P hP hobs
    have hc : checkSpecificProcesses criticalProcesses env.criticalListOutput = true := by
      rw [hP]
      exact checkSpecific_critical_of_obs P hobs
    unfold detectScreenCapture
    rw [trace_of_critical env hc]
  refine ⟨?_, fun h => trace_of_critical env h, ?_, ?_, ?_, ?_, hobsd⟩ <;>
    clear hobsd <;>
    obtain ⟨pf, dev, co, so, mp, wo⟩ := env <;>
    cases hcb : checkSpecificProcesses criticalProcesses co <;>
    cases pf <;> cases mp <;> cases dev <;>
    cases hcs : checkSuspiciousProcesses so <;>
    simp_all [detectScreenCaptureTrace, detectScreenCapture]

/-- C2, witness: the "obs" scenario in development mode on a non-darwin,
non-win32 platform still fires on the first pass. -/
theorem c2_witness :
    detectScreenCapture
      { platform := Platform.linux, developmentMode := true,
        criticalListOutput := some "user 1401 OBS Studio", suspiciousListOutput := none,
        macProbe := false, wmicOutput := none } = true := by
  exact (c2_detection_pass_structure _).2.2.2.2.2.2 "user 1401 OBS Studio" rfl (by decide)

/-- C3: whichever button the user picks at the blocking prompt, the
main-process handler performs exactly one `app.quit` (immediately on confirm,
after 1000 ms on cancel) and the renderer handler performs exactly one
`logout` (after 500 ms on confirm, 100 ms on cancel); no branch dismisses the
event without the terminal action. -/
theorem c3_response_always_terminates :
    ∀ (s : MonState) (choice : UserChoice) (userConfirmed : Bool),
      quitDelays (handleScreenCaptureDetectedRun s choice).2 =
        [if choice = UserChoice.confirm then 0 else 1000] ∧
      logoutDelays (handleScreenshotDetected userConfirmed) =
        [if userConfirmed then 500 else 100] ∧
      (if choice = UserChoice.confirm then 0 else 1000 : Nat) ≤ 1000 ∧
      (if userConfirmed then 500 else 100 : Nat) ≤ 500 := by
  intro s choice userConfirmed
  cases choice <;> cases userConfirmed <;>
    simp [quitDelays, logoutDelays, handleScreenCaptureDetectedRun,
      handleScreenshotDetected]

/-- C4, counterexample: in the main-process handler the confirm path quits
with delay 0 and the cancel path with delay 1000, so the confirm grace delay
is not strictly longer than the cancel one there. -/
theorem c4_counterexample :
    ¬ (∃ dConfirm dCancel : Nat,
        firstQuitDelay
            (handleScreenCaptureDetectedRun initMonState UserChoice.confirm).2 =
          some dConfirm ∧
        firstQuitDelay
            (handleScreenCaptureDetectedRun initMonState UserChoice.cancel).2 =
          some dCancel ∧
        dCancel < dConfirm) := by
  rintro ⟨dConfirm, dCancel, h1, h2, hlt⟩
  have e1 : firstQuitDelay
      (handleScreenCaptureDetectedRun initMonState UserChoice.confirm).2 = some 0 := by
    decide
  have e2 : firstQuitDelay
      (handleScreenCaptureDetectedRun initMonState UserChoice.cancel).2 = some 1000 := by
    decide
  rw [e1] at h1
  rw [e2] at h2
  injection h1 with h1
  injection h2 with h2
  omega

/-- C4 (amended): both choices converge to the same terminal action in each
handler; in the renderer handler the confirm delay (500 ms) is strictly
longer than the cancel delay (100 ms), while in the main-process handler the
relation is reversed: confirm quits immediately and cancel quits after
1000 ms. -/
theorem c4_amended_delays :
    ∀ s : MonState,
      quitDelays (handleScreenCaptureDetectedRun s UserChoice.confirm).2 = [0] ∧
      quitDelays (handleScreenCaptureDetectedRun s UserChoice.cancel).2 = [1000] ∧
      logoutDelays (handleScreenshotDetected true) = [500] ∧
      logoutDelays (handleScreenshotDetected false) = [100] ∧
      (100 : Nat) < 500 ∧ (0 : Nat) < 1000 := by
  intro s
  refine ⟨?_, ?_, ?_, ?_, by omega, by omega⟩ <;>
    simp [quitDelays, logoutDelays, handleScreenCaptureDetectedRun,
      handleScreenshotDetected]

theorem stop_liveTimers_of_inv (s : MonState) (h : MonInv s) :
    (stopMonitoringState s).liveTimers = [] := by
  obtain ⟨mon, hdl, lt, nid⟩ := s
  obtain ⟨h1, h2⟩ := h
  cases mon <;> cases hdl <;> simp_all [stopMonitoringState, List.erase_cons]

/-- C5: the main-process response handler performs `stopMonitoring` strictly
before presenting the blocking prompt (positions 0 and 1 of its action
trace), and on any state reachable by the lifecycle the scheduler has no
live interval timer left by the time the prompt shows. -/
theorem c5_stop_before_prompt :
    ∀ (s : MonState) (choice : UserChoice),
      ((handleScreenCaptureDetectedRun s choice).2.indexOf
          MainEvent.stopMonitoringEv = 0) ∧
      ((handleScreenCaptureDetectedRun s choice).2.indexOf
          MainEvent.showDialog = 1) ∧
      MainEvent.showDialog ∈ (handleScreenCaptureDetectedRun s choice).2 ∧
      (handleScreenCaptureDetectedRun s choice).1 = stopMonitoringState s ∧
      (∀ env : MonEnv, ReachableMon env s →
        (handleScreenCaptureDetectedRun s choice).1.liveTimers = []) := by
  intro s choice
  refine ⟨?_, ?_, ?_, rfl, ?_⟩
  · cases choice <;> rfl
  · cases choice <;> rfl
  · cases choice <;> simp [handleScreenCaptureDetectedRun]
  · intro env hr
    exact stop_liveTimers_of_inv s (monInv_reachable hr)

/-- C5, witness: the ordering and the cleared timer at a concrete reachable
state (one production start from the initial state). -/
theorem c5_witness :
    (handleScreenCaptureDetectedRun
        (startMonitoring ⟨false, false⟩ initMonState) UserChoice.confirm).2.indexOf
        MainEvent.stopMonitoringEv = 0 ∧
    (handleScreenCaptureDetectedRun
        (startMonitoring ⟨false, false⟩ initMonState) UserChoice.confirm).2.indexOf
        MainEvent.showDialog = 1 ∧
    (handleScreenCaptureDetectedRun
        (startMonitoring ⟨false, false⟩ initMonState) UserChoice.confirm).1.liveTimers = [] := by
  have h := c5_stop_before_prompt
    (startMonitoring ⟨false, false⟩ initMonState) UserChoice.confirm
  exact ⟨h.1, h.2.1, h.2.2.2.2 ⟨false, false⟩ (ReachableMon.start ReachableMon.init)⟩

/-- C7: the main-process response handler never performs a renderer
notification on any channel — in particular not on the two channels the
renderer hook listens on — so the notification count per detected capture
event is 0, not 1. -/
theorem c7_no_notification_sent :
    ∀ (s : MonState) (choice : UserChoice),
      notifyCount (handleScreenCaptureDetectedRun s choice).2 = 0 ∧
      rendererListenerChannels = ["screen-capture-detected", "screenshot-detected"] ∧
      notifyCount (handleScreenCaptureDetectedRun s choice).2 ≠ 1 := by
  intro s choice
  cases choice <;>
    exact ⟨by rfl, rfl, by simp [notifyCount, handleScreenCaptureDetectedRun]⟩

theorem patMatchAt_self_append (p b : List Char)
    (hp : ∀ c ∈ p, regexCharMatch c c = true) :
    patMatchAt p (p ++ b) = true := by
  induction p with
  | nil => rfl
  | cons c cs ih =>
      simp only [List.cons_append, patMatchAt, Bool.and_eq_true]
      exact ⟨hp c (by simp), ih (fun x hx => hp x (by simp [hx]))⟩

theorem winlogon_pattern_selfmatch :
    ∀ c ∈ "winlogon.exe".toList, regexCharMatch c c = true := by decide

theorem regexTestCI_of_contains (hay : List Char)
    (h : listContainsB "winlogon.exe".toList hay = true) :
    regexTestCI "winlogon.exe" hay = true := by
  rw [listContainsB_iff] at h
  obtain ⟨a, b, hab⟩ := h
  unfold regexTestCI
  rw [List.any_eq_true]
  refine ⟨"winlogon.exe".toList ++ b, ?_,
    patMatchAt_self_append _ _ winlogon_pattern_selfmatch⟩
  rw [List.mem_tails, ← hab, List.append_assoc]
  exact List.suffix_append a _

theorem detectWindows_of_contains (out : String)
    (h : ciSubstr "winlogon.exe" out = true) :
    detectWindowsScreenCapture (some out) = true := by
  have e : jsLower "winlogon.exe" = "winlogon.exe".toList := by decide
  rw [ciSubstr, e] at h
  have hre := regexTestCI_of_contains (jsLower out) h
  simp [detectWindowsScreenCapture, captureProcessesWin, List.find?, hre]

/-- C6: the Windows heuristic's signature list is exactly `['winlogon.exe']`;
any successful `wmic` listing containing `winlogon.exe` case-insensitively
makes the heuristic return true; hence on win32 outside development mode any
such listing makes the whole detection pass return true. -/
theorem c6_winlogon_always_detected :
    captureProcessesWin = ["winlogon.exe"] ∧
    (∀ out : String, ciSubstr "winlogon.exe" out = true →
      detectWindowsScreenCapture (some out) = true) ∧
    (∀ env : DetectEnv, env.platform = Platform.win32 →
      env.developmentMode = false →
      ∀ out : String, env.wmicOutput = some out →
        ciSubstr "winlogon.exe" out = true →
        detectScreenCapture env = true) := by
  refine ⟨rfl, detectWindows_of_contains, ?_⟩
  intro env hplat hdev out hout hci
  obtain ⟨pf, dev, co, so, mp, wo⟩ := env
  simp only at hplat hdev hout
  subst hplat hdev hout
  have hwin := detectWindows_of_contains out hci
  cases hcb : checkSpecificProcesses criticalProcesses co <;>
    cases hcs : checkSuspiciousProcesses so <;>
    simp [detectScreenCapture, detectScreenCaptureTrace, hcb, hcs, hwin]

/-- C6, witness: a concrete win32 production environment whose `wmic` output
contains `WinLogon.exe` is detected. -/
theorem c6_witness :
    detectScreenCapture
      { platform := Platform.win32, developmentMode := false,
        criticalListOutput := some "chrome.exe", suspiciousListOutput := some "chrome.exe",
        macProbe := false, wmicOutput := some "WinLogon.exe   612" } = true := by
  exact c6_winlogon_always_detected.2.2 _ rfl rfl "WinLogon.exe   612" rfl (by decide)

theorem start_isMonitoring (env : MonEnv) (s : MonState) :
    (startMonitoring env s).isMonitoring = true := by
  obtain ⟨mon, hdl, lt, nid⟩ := s
  cases mon <;> by_cases hd : env.disableScreenProtection <;>
    simp [startMonitoring, hd]

theorem start_start (env : MonEnv) (s : MonState) :
    startMonitoring env (startMonitoring env s) = startMonitoring env s := by
  obtain ⟨mon, hdl, lt, nid⟩ := s
  cases mon <;> by_cases hd : env.disableScreenProtection <;>
    simp [startMonitoring, hd]

theorem stop_stop (s : MonState) :
    stopMonitoringState (stopMonitoringState s) = stopMonitoringState s := by
  obtain ⟨mon, hdl, lt, nid⟩ := s
  cases mon <;> cases hdl <;> simp [stopMonitoringState]

theorem monInv_length_le_one (s : MonState) (h : MonInv s) :
    s.liveTimers.length ≤ 1 := by
  obtain ⟨mon, hdl, lt, nid⟩ := s
  obtain ⟨h1, h2⟩ := h
  cases hdl <;> simp_all

/-- C8: `startMonitoring` and `stopMonitoring` are idempotent, every state
reachable by the lifecycle has at most one live interval timer, two
successive starts from the initial state leave exactly one live timer
whenever the disable flag is unset, and two successive stops after that
leave zero. -/
theorem c8_scheduler_idempotent :
    ∀ (env : MonEnv) (s : MonState),
      startMonitoring env (startMonitoring env s) = startMonitoring env s ∧
      stopMonitoringState (stopMonitoringState s) = stopMonitoringState s ∧
      (ReachableMon env s → s.liveTimers.length ≤ 1) ∧
      (env.disableScreenProtection = false →
        (startMonitoring env (startMonitoring env initMonState)).liveTimers.length = 1) ∧
      (stopMonitoringState (stopMonitoringState
          (startMonitoring env (startMonitoring env initMonState)))).liveTimers.length = 0 := by
  intro env s
  refine ⟨start_start env s, stop_stop s,
    fun hr => monInv_length_le_one s (monInv_reachable hr), ?_, ?_⟩
  · intro hd
    rw [start_start]
    simp [startMonitoring, initMonState, hd]
  · rw [start_start, stop_stop]
    by_cases hd : env.disableScreenProtection <;>
      simp [startMonitoring, stopMonitoringState, initMonState, hd]

/-- C8, witness: the reachability and disable-flag hypotheses discharged at
the initial state of a production environment. -/
theorem c8_witness :
    (startMonitoring ⟨false, false⟩
        (startMonitoring ⟨false, false⟩ initMonState)).liveTimers.length = 1 ∧
    initMonState.liveTimers.length ≤ 1 :=
  ⟨(c8_scheduler_idempotent ⟨false, false⟩ initMonState).2.2.2.1 rfl,
   (c8_scheduler_idempotent ⟨false, false⟩ initMonState).2.2.1 ReachableMon.init⟩

/-- C9: with `DISABLE_SCREEN_PROTECTION = 'true'`, `startMonitoring` creates
no interval timer (so no detection pass — hence no process-listing command —
ever fires) yet marks itself as monitoring; the `start-screen-protection`
handler still reports success with the session active; and a second start is
a no-op. -/
theorem c9_disabled_env :
    ∀ env : MonEnv, env.disableScreenProtection = true →
      (startMonitoring env initMonState).isMonitoring = true ∧
      (startMonitoring env initMonState).handle = none ∧
      (startMonitoring env initMonState).liveTimers = [] ∧
      (∀ n : Nat, detectionPassesFired (startMonitoring env initMonState) n = 0) ∧
      (startScreenProtectionHandler env
          { screenProtectionActive := false, mon := initMonState } =
        ({ screenProtectionActive := true, mon := startMonitoring env initMonState },
         { success := true })) ∧
      startMonitoring env (startMonitoring env initMonState) =
        startMonitoring env initMonState := by
  intro env hd
  refine ⟨?_, ?_, ?_, ?_, rfl, start_start env initMonState⟩ <;>
    simp [startMonitoring, initMonState, detectionPassesFired, hd]

/-- C9, witness: the disabled environment at concrete flags. -/
theorem c9_witness :
    (startMonitoring ⟨true, false⟩ initMonState).isMonitoring = true ∧
    (startMonitoring ⟨true, false⟩ initMonState).liveTimers = [] ∧
    detectionPassesFired (startMonitoring ⟨true, false⟩ initMonState) 5 = 0 := by
  have h := c9_disabled_env ⟨true, false⟩ rfl
  exact ⟨h.1, h.2.2.1, h.2.2.2.1 5⟩

/-- C10: off darwin, both permission operations and both permission IPC
handlers return true and perform no OS side effect at all. -/
theorem c10_no_gating_always_true :
    ∀ e : PermEnv, e.platform ≠ Platform.darwin →
      checkMacOSScreenRecordingPermission e = (true, []) ∧
      requestMacOSScreenRecordingPermission e = (true, []) ∧
      checkScreenPermissionHandler e = (true, []) ∧
      requestScreenPermissionHandler e = (true, []) := by
  intro e he
  simp [checkMacOSScreenRecordingPermission, requestMacOSScreenRecordingPermission,
    checkScreenPermissionHandler, requestScreenPermissionHandler, he]

/-- C10, witness: the non-gating platform hypothesis discharged at win32. -/
theorem c10_witness :
    checkMacOSScreenRecordingPermission
        ⟨Platform.win32, some MediaAccessStatus.denied, some 0⟩ = (true, []) ∧
    requestMacOSScreenRecordingPermission
        ⟨Platform.win32, some MediaAccessStatus.denied, some 0⟩ = (true, []) ∧
    checkScreenPermissionHandler
        ⟨Platform.win32, some MediaAccessStatus.denied, some 0⟩ = (true, []) ∧
    requestScreenPermissionHandler
        ⟨Platform.win32, some MediaAccessStatus.denied, some 0⟩ = (true, []) := by
  exact c10_no_gating_always_true
    ⟨Platform.win32, some MediaAccessStatus.denied, some 0⟩ (by decide)

end BookApp
